import Mathlib

/-!
Shallow embedding of the moral-vector-analyzer client (src/src/App.tsx):
the point store, the y-cache, the retry loop around the model call, and
the point-list operations. JavaScript numbers that may be `undefined` at
runtime are modelled as `Option ℚ`; the external model endpoint is
modelled as a function from attempt index to an abstract response.
-/

/-- The two prompt-template variants (`AnalysisMode` in App.tsx). -/
inductive AnalysisMode where
  | philosopher
  | seismograph
deriving DecidableEq, Repr

/-- String interpolation of the mode flag, as in the template literal
making up the cache key. -/
def modeStr : AnalysisMode → String
  | .philosopher => "philosopher"
  | .seismograph => "seismograph"

/-- A plotted point (`MoralPoint` in App.tsx). Coordinates are rationals
standing in for JS numbers; optional fields and fields that can be
`undefined` at runtime are `Option ℚ`. -/
structure MoralPoint where
  id : String
  action : String
  intent : String
  x : Option ℚ
  y : Option ℚ
  yMin : Option ℚ
  yMax : Option ℚ
  xMin : Option ℚ
  xMax : Option ℚ
  label : String
  mode : AnalysisMode
  showNoise : Bool
deriving DecidableEq, Repr

/-- A y-cache entry: the record type stored in the `yCache` state
(`{ y, yMin?, yMax?, xMin?, xMax? }`). The `y` field is `Option ℚ`
because at runtime it holds whatever `apiResult.y` was, which can be
`undefined` when the parsed payload lacked the field. -/
structure CacheEntry where
  y : Option ℚ
  yMin : Option ℚ
  yMax : Option ℚ
  xMin : Option ℚ
  xMax : Option ℚ
deriving DecidableEq, Repr

/-- The y-cache, a JS `Record<string, CacheEntry>` modelled as an
association list. -/
abbrev YCache := List (String × CacheEntry)

/-- `yCache[key]` lookup. -/
def cacheLookup (c : YCache) (k : String) : Option CacheEntry :=
  (List.find? (fun p => p.1 == k) c).map Prod.snd

/-- `{...prev, [key]: v}`: set the binding for `k` to `v`, keeping all
other bindings. -/
def cacheInsert (c : YCache) (k : String) (v : CacheEntry) : YCache :=
  (List.filter (fun p => p.1 != k) c) ++ [(k, v)]

/-- The component state: inputs, mode, point store, y-cache, in-flight
flag, error banner and toast notification. -/
structure AppState where
  actionInput : String
  intentInput : String
  mode : AnalysisMode
  points : List MoralPoint
  yCache : YCache
  isSimulating : Bool
  error : Option String
  notification : Option String
deriving DecidableEq, Repr

/-- The pre-seeded initial point ("I abort my child"). -/
def initialPoint : MoralPoint :=
  { id := "1"
    action := "I abort my child"
    intent := "My life was in danger"
    x := some (95/100)
    y := some (-3/10)
    yMin := some (-8/10)
    yMax := some (2/10)
    xMin := some (85/100)
    xMax := some 1
    label := "Abortion for the life of the mother"
    mode := .seismograph
    showNoise := true }

/-- The pre-seeded cache entry for the initial scenario. Note that it
stores x-bounds alongside the y data. -/
def initialCacheEntry : CacheEntry :=
  { y := some (-3/10)
    yMin := some (-8/10)
    yMax := some (2/10)
    xMin := some (85/100)
    xMax := some 1 }

/-- The initial component state. -/
def initialState : AppState :=
  { actionInput := ""
    intentInput := ""
    mode := .seismograph
    points := [initialPoint]
    yCache := [("seismograph:i abort my child", initialCacheEntry)]
    isSimulating := false
    error := none
    notification := none }

/-- What one attempt of the network call can observe: a non-success HTTP
status, a response whose candidates hold no text part, a text part that
is not parsable JSON, or a parsed JSON object whose six expected fields
are each present or absent. -/
inductive ApiResponse where
  | httpError (status : Nat)
  | noText
  | unparsableJson
  | payload (x y ymin ymax xmin xmax : Option ℚ)
deriving DecidableEq, Repr

/-- The result record returned by `callGeminiAPI`. Fields are the parsed
`x`, `y`, `y_min`, `y_max`, `x_min`, `x_max`, each possibly `undefined`. -/
structure ApiResult where
  x : Option ℚ
  y : Option ℚ
  yMin : Option ℚ
  yMax : Option ℚ
  xMin : Option ℚ
  xMax : Option ℚ
deriving DecidableEq, Repr

/-- `callGeminiAPI`: throws on `!response.ok`, on a missing text part and
on unparsable JSON; otherwise returns the six fields of the parsed
object as they are — a missing field propagates as `undefined` rather
than raising an error. -/
def callGeminiAPI : ApiResponse → Except Unit ApiResult
  | .httpError _ => .error ()
  | .noText => .error ()
  | .unparsableJson => .error ()
  | .payload x y ymin ymax xmin xmax => .ok ⟨x, y, ymin, ymax, xmin, xmax⟩

/-- JS `String.prototype.toLowerCase`, modelled per character. -/
def toLowerStr (s : String) : String :=
  ⟨s.data.map Char.toLower⟩

/-- JS `String.prototype.trim`: strip leading and trailing whitespace. -/
def trimStr (s : String) : String :=
  ⟨((s.data.dropWhile Char.isWhitespace).reverse.dropWhile Char.isWhitespace).reverse⟩

/-- The normalized, mode-qualified cache key:
`mode + ":" + actionInput.trim().toLowerCase()`. -/
def actionKeyOf (st : AppState) : String :=
  modeStr st.mode ++ ":" ++ toLowerStr (trimStr st.actionInput)

/-- The message passed to `setError` when all retries fail. -/
def analysisFailedMsg : String := "AI Analysis failed. Please try again."

/-- Observable outcome of one `handleAnalyze` invocation: the final
state, the backoff delays awaited (milliseconds, in order), how many API
calls were issued, whether a point was appended, the non-null messages
passed to `setError`, and how many times the cache was written. -/
structure AnalyzeOutcome where
  state : AppState
  delays : List Nat
  apiCalls : Nat
  success : Bool
  errorsSurfaced : List String
  cacheWrites : Nat
deriving DecidableEq, Repr

/-- The success path of `handleAnalyze` once `callGeminiAPI` resolved:
the consistency check replaces the fresh y data by the cached entry when
the key is present, otherwise stores the fresh y data (without x-bounds);
the new point always takes `x`, `xMin`, `xMax` from the fresh result;
inputs are cleared and the in-flight flag dropped. -/
def buildSuccess (st1 : AppState) (key newId : String) (r : ApiResult) : AppState :=
  match cacheLookup st1.yCache key with
  | some c =>
      { st1 with
        points := st1.points ++
          [{ id := newId
             action := st1.actionInput
             intent := st1.intentInput
             x := r.x
             y := c.y
             yMin := c.yMin
             yMax := c.yMax
             xMin := r.xMin
             xMax := r.xMax
             label := "Scenario " ++ toString (st1.points.length + 1)
             mode := st1.mode
             showNoise := false }]
        actionInput := ""
        intentInput := ""
        isSimulating := false }
  | none =>
      { st1 with
        yCache := cacheInsert st1.yCache key
          { y := r.y, yMin := r.yMin, yMax := r.yMax, xMin := none, xMax := none }
        points := st1.points ++
          [{ id := newId
             action := st1.actionInput
             intent := st1.intentInput
             x := r.x
             y := r.y
             yMin := r.yMin
             yMax := r.yMax
             xMin := r.xMin
             xMax := r.xMax
             label := "Scenario " ++ toString (st1.points.length + 1)
             mode := st1.mode
             showNoise := false }]
        actionInput := ""
        intentInput := ""
        isSimulating := false }

/-- Whether the success path wrote the cache: 1 on a miss, 0 on a hit. -/
def successWrites (st1 : AppState) (key : String) : Nat :=
  match cacheLookup st1.yCache key with
  | some _ => 0
  | none => 1

/-- The state after the retry loop exhausts: the caught re-thrown last
error sets the banner and drops the in-flight flag; points, cache and
inputs are untouched. -/
def failState (st1 : AppState) : AppState :=
  { st1 with error := some analysisFailedMsg, isSimulating := false }

/-- The `for (let i = 0; i < 3; i++)` retry loop: `i` is the attempt
index, `fuel` the remaining iterations, `delays` the waits recorded so
far. A failed attempt always awaits `2^i * 1000` milliseconds — also on
the final iteration — before the loop re-tests its condition. -/
def go (st1 : AppState) (key newId : String) (env : Nat → ApiResponse) :
    Nat → Nat → List Nat → AnalyzeOutcome
  | i, 0, delays =>
      { state := failState st1
        delays := delays
        apiCalls := i
        success := false
        errorsSurfaced := [analysisFailedMsg]
        cacheWrites := 0 }
  | i, fuel + 1, delays =>
      match callGeminiAPI (env i) with
      | .ok r =>
          { state := buildSuccess st1 key newId r
            delays := delays
            apiCalls := i + 1
            success := true
            errorsSurfaced := []
            cacheWrites := successWrites st1 key }
      | .error _ => go st1 key newId env (i + 1) fuel (delays ++ [2 ^ i * 1000])

/-- `handleAnalyze`: bail out on an empty action or intent input without
touching anything; otherwise raise the in-flight flag, clear the error,
compute the cache key and run the three-attempt retry loop. `newId` is
the `Date.now().toString()` identifier of the point a success would
append; `env` gives the response each attempt would observe. -/
def handleAnalyze (st : AppState) (newId : String) (env : Nat → ApiResponse) :
    AnalyzeOutcome :=
  if st.actionInput = "" ∨ st.intentInput = "" then
    { state := st
      delays := []
      apiCalls := 0
      success := false
      errorsSurfaced := []
      cacheWrites := 0 }
  else
    go { st with isSimulating := true, error := none }
      (actionKeyOf st) newId env 0 3 []

/-- `removePoint`: `points.filter(p => p.id !== id)`. -/
def removePoint (st : AppState) (pid : String) : AppState :=
  { st with points := st.points.filter (fun p => p.id != pid) }

/-- `clearAllPoints`: `setPoints([])`. -/
def clearAllPoints (st : AppState) : AppState :=
  { st with points := [] }

/-- `toggleNoise`: map over the points, flipping `showNoise` on the
matching identifier. -/
def toggleNoise (st : AppState) (pid : String) : AppState :=
  { st with
    points := st.points.map
      (fun p => if p.id == pid then { p with showNoise := !p.showNoise } else p) }

/-- `clearCache`: empty the cache and raise the toast notification. -/
def clearCache (st : AppState) : AppState :=
  { st with yCache := [], notification := some "Logic Cache Cleared Successfully" }

/-- Typing into the two textareas before a submission. -/
def setInputs (st : AppState) (a i : String) : AppState :=
  { st with actionInput := a, intentInput := i }

/-! ### Helper lemmas about the cache -/

theorem cacheLookup_insert_self (c : YCache) (k : String) (v : CacheEntry) :
    cacheLookup (cacheInsert c k v) k = some v := by
  induction c with
  | nil => simp [cacheLookup, cacheInsert]
  | cons hd tl ih =>
      by_cases h : hd.1 = k
      · simp [cacheLookup, cacheInsert, List.filter_cons, h] at ih ⊢
      · simp [cacheLookup, cacheInsert, List.filter_cons, h] at ih ⊢

theorem find_filter_of_ne (c : YCache) (k j : String) (h : j ≠ k) :
    List.find? (fun p => p.1 == j) (List.filter (fun p => p.1 != k) c) =
    List.find? (fun p => p.1 == j) c := by
  induction c with
  | nil => rfl
  | cons hd tl ih =>
      by_cases h1 : hd.1 = k
      · have h2 : ¬ hd.1 = j := by
          rw [h1]
          exact Ne.symm h
        have h3 : (k == j) = false := by
          simp [Ne.symm h]
        simp [List.filter_cons, List.find?_cons, h1, h2, h3, ih]
      · by_cases h2 : hd.1 = j
        · simp [List.filter_cons, List.find?_cons, h1, h2, h]
        · simp [List.filter_cons, List.find?_cons, h1, h2, h, ih]

theorem cacheLookup_insert_ne (c : YCache) (k j : String) (v : CacheEntry)
    (h : j ≠ k) : cacheLookup (cacheInsert c k v) j = cacheLookup c j := by
  unfold cacheLookup cacheInsert
  rw [List.find?_append, find_filter_of_ne c k j h]
  have h2 : List.find? (fun p => p.1 == j) [(k, v)] = none := by
    simp [Ne.symm h]
  rw [h2, Option.or_none]

/-! ### Helper lemmas about the success path -/

theorem buildSuccess_getLast (st1 : AppState) (key newId : String) (r : ApiResult) :
    ∃ p c,
      (buildSuccess st1 key newId r).points.getLast? = some p ∧
      cacheLookup (buildSuccess st1 key newId r).yCache key = some c ∧
      p.y = c.y ∧ p.yMin = c.yMin ∧ p.yMax = c.yMax ∧
      p.x = r.x ∧ p.xMin = r.xMin ∧ p.xMax = r.xMax ∧
      p.id = newId ∧ p.action = st1.actionInput ∧ p.intent = st1.intentInput ∧
      p.mode = st1.mode ∧ p.showNoise = false := by
  cases h : cacheLookup st1.yCache key with
  | some c =>
      unfold buildSuccess
      rw [h]
      exact ⟨_, c, List.getLast?_concat _, h, rfl, rfl, rfl, rfl, rfl, rfl,
        rfl, rfl, rfl, rfl, rfl⟩
  | none =>
      unfold buildSuccess
      rw [h]
      exact ⟨_, _, List.getLast?_concat _,
        cacheLookup_insert_self st1.yCache key
          { y := r.y, yMin := r.yMin, yMax := r.yMax, xMin := none, xMax := none },
        rfl, rfl, rfl, rfl, rfl, rfl, rfl, rfl, rfl, rfl, rfl⟩

theorem buildSuccess_hit (st1 : AppState) (key newId : String) (r : ApiResult)
    (c : CacheEntry) (h : cacheLookup st1.yCache key = some c) :
    (buildSuccess st1 key newId r).yCache = st1.yCache ∧
    ∃ p, (buildSuccess st1 key newId r).points.getLast? = some p ∧
      p.y = c.y ∧ p.yMin = c.yMin ∧ p.yMax = c.yMax ∧
      p.x = r.x ∧ p.xMin = r.xMin ∧ p.xMax = r.xMax := by
  unfold buildSuccess
  rw [h]
  exact ⟨rfl, _, List.getLast?_concat _, rfl, rfl, rfl, rfl, rfl, rfl⟩

theorem buildSuccess_miss (st1 : AppState) (key newId : String) (r : ApiResult)
    (h : cacheLookup st1.yCache key = none) :
    (buildSuccess st1 key newId r).yCache =
      cacheInsert st1.yCache key
        { y := r.y, yMin := r.yMin, yMax := r.yMax, xMin := none, xMax := none } ∧
    ∃ p, (buildSuccess st1 key newId r).points.getLast? = some p ∧
      p.y = r.y ∧ p.yMin = r.yMin ∧ p.yMax = r.yMax ∧
      p.x = r.x ∧ p.xMin = r.xMin ∧ p.xMax = r.xMax := by
  unfold buildSuccess
  rw [h]
  exact ⟨rfl, _, List.getLast?_concat _, rfl, rfl, rfl, rfl, rfl, rfl⟩

theorem buildSuccess_mode (st1 : AppState) (key newId : String) (r : ApiResult) :
    (buildSuccess st1 key newId r).mode = st1.mode := by
  unfold buildSuccess
  cases cacheLookup st1.yCache key <;> rfl

/-! ### Characterizations of the retry loop -/

theorem handleAnalyze_empty (st : AppState) (newId : String) (env : Nat → ApiResponse)
    (h : st.actionInput = "" ∨ st.intentInput = "") :
    handleAnalyze st newId env =
      { state := st, delays := [], apiCalls := 0, success := false,
        errorsSurfaced := [], cacheWrites := 0 } := by
  unfold handleAnalyze
  rw [if_pos h]

theorem handleAnalyze_success_char (st : AppState) (newId : String)
    (env : Nat → ApiResponse)
    (h : (handleAnalyze st newId env).success = true) :
    ∃ j r, j < 3 ∧ callGeminiAPI (env j) = Except.ok r ∧
      (∀ k, k < j → callGeminiAPI (env k) = Except.error ()) ∧
      handleAnalyze st newId env =
        { state := buildSuccess { st with isSimulating := true, error := none }
            (actionKeyOf st) newId r
          delays := (List.range j).map (fun n => 2 ^ n * 1000)
          apiCalls := j + 1
          success := true
          errorsSurfaced := []
          cacheWrites := successWrites { st with isSimulating := true, error := none }
            (actionKeyOf st) } := by
  by_cases hin : st.actionInput = "" ∨ st.intentInput = ""
  · rw [handleAnalyze_empty st newId env hin] at h
    simp at h
  · unfold handleAnalyze at h ⊢
    rw [if_neg hin] at h ⊢
    cases h0 : callGeminiAPI (env 0) with
    | ok r =>
        refine ⟨0, r, by norm_num, h0, ?_, ?_⟩
        · intro k hk
          exact absurd hk (Nat.not_lt_zero k)
        · simp [go, h0]
    | error e =>
        cases e
        cases h1 : callGeminiAPI (env 1) with
        | ok r =>
            refine ⟨1, r, by norm_num, h1, ?_, ?_⟩
            · intro k hk
              have hk0 : k = 0 := by omega
              rw [hk0]
              exact h0
            · simp [go, h0, h1, List.range_succ]
        | error e =>
            cases e
            cases h2 : callGeminiAPI (env 2) with
            | ok r =>
                refine ⟨2, r, by norm_num, h2, ?_, ?_⟩
                · intro k hk
                  interval_cases k
                  · exact h0
                  · exact h1
                · simp [go, h0, h1, h2, List.range_succ]
            | error e =>
                cases e
                exfalso
                simp [go, h0, h1, h2] at h

theorem handleAnalyze_all_fail (st : AppState) (newId : String)
    (env : Nat → ApiResponse)
    (hin : ¬ (st.actionInput = "" ∨ st.intentInput = ""))
    (h0 : callGeminiAPI (env 0) = Except.error ())
    (h1 : callGeminiAPI (env 1) = Except.error ())
    (h2 : callGeminiAPI (env 2) = Except.error ()) :
    handleAnalyze st newId env =
      { state := failState { st with isSimulating := true, error := none }
        delays := [1000, 2000, 4000]
        apiCalls := 3
        success := false
        errorsSurfaced := [analysisFailedMsg]
        cacheWrites := 0 } := by
  unfold handleAnalyze
  rw [if_neg hin]
  simp [go, h0, h1, h2]

theorem go_apiCalls_le (st1 : AppState) (key newId : String)
    (env : Nat → ApiResponse) (fuel : Nat) :
    ∀ i delays, (go st1 key newId env i fuel delays).apiCalls ≤ i + fuel := by
  induction fuel with
  | zero =>
      intro i delays
      simp [go]
  | succ fuel ih =>
      intro i delays
      cases hc : callGeminiAPI (env i) with
      | ok r =>
          simp only [go, hc]
          omega
      | error e =>
          cases e
          simp only [go, hc]
          exact le_trans (ih (i + 1) (delays ++ [2 ^ i * 1000])) (by omega)

theorem handleAnalyze_apiCalls_le3 (st : AppState) (newId : String)
    (env : Nat → ApiResponse) :
    (handleAnalyze st newId env).apiCalls ≤ 3 := by
  by_cases hin : st.actionInput = "" ∨ st.intentInput = ""
  · rw [handleAnalyze_empty st newId env hin]
    norm_num
  · unfold handleAnalyze
    rw [if_neg hin]
    simpa using go_apiCalls_le
      { st with isSimulating := true, error := none } (actionKeyOf st) newId env 3 0 []

theorem go_fail_state (st1 : AppState) (key newId : String)
    (env : Nat → ApiResponse) (fuel : Nat) :
    ∀ i delays, (go st1 key newId env i fuel delays).success = false →
      (go st1 key newId env i fuel delays).state = failState st1 := by
  induction fuel with
  | zero =>
      intro i delays _
      simp [go]
  | succ fuel ih =>
      intro i delays h
      cases hc : callGeminiAPI (env i) with
      | ok r =>
          rw [show go st1 key newId env i (fuel + 1) delays =
            { state := buildSuccess st1 key newId r, delays := delays,
              apiCalls := i + 1, success := true, errorsSurfaced := [],
              cacheWrites := successWrites st1 key } from by simp [go, hc]] at h
          simp at h
      | error e =>
          cases e
          rw [show go st1 key newId env i (fuel + 1) delays =
            go st1 key newId env (i + 1) fuel (delays ++ [2 ^ i * 1000]) from by
              simp [go, hc]] at h ⊢
          exact ih (i + 1) (delays ++ [2 ^ i * 1000]) h

theorem handleAnalyze_fail_char (st : AppState) (newId : String)
    (env : Nat → ApiResponse)
    (h : (handleAnalyze st newId env).success = false) :
    (handleAnalyze st newId env).state = st ∨
    (handleAnalyze st newId env).state =
      failState { st with isSimulating := true, error := none } := by
  by_cases hin : st.actionInput = "" ∨ st.intentInput = ""
  · left
    rw [handleAnalyze_empty st newId env hin]
  · right
    unfold handleAnalyze at h ⊢
    rw [if_neg hin] at h ⊢
    exact go_fail_state _ _ _ env 3 0 [] h

theorem cached_y_point (st : AppState) (newId : String) (env : Nat → ApiResponse)
    (c : CacheEntry) (hc : cacheLookup st.yCache (actionKeyOf st) = some c)
    (h : (handleAnalyze st newId env).success = true) :
    ∃ p, (handleAnalyze st newId env).state.points.getLast? = some p ∧
      p.y = c.y ∧ p.yMin = c.yMin ∧ p.yMax = c.yMax := by
  obtain ⟨j, r, hj, hok, hfail, heq⟩ := handleAnalyze_success_char st newId env h
  have hc1 : cacheLookup
      (AppState.yCache { st with isSimulating := true, error := none })
      (actionKeyOf st) = some c := hc
  obtain ⟨-, p, hp, hy, hymin, hymax, -, -, -⟩ :=
    buildSuccess_hit { st with isSimulating := true, error := none }
      (actionKeyOf st) newId r c hc1
  refine ⟨p, ?_, hy, hymin, hymax⟩
  rw [heq]
  exact hp

theorem analyze_post_point_cache (st : AppState) (newId : String)
    (env : Nat → ApiResponse)
    (h : (handleAnalyze st newId env).success = true) :
    ∃ p c, (handleAnalyze st newId env).state.points.getLast? = some p ∧
      cacheLookup (handleAnalyze st newId env).state.yCache (actionKeyOf st) = some c ∧
      p.y = c.y ∧ p.yMin = c.yMin ∧ p.yMax = c.yMax ∧
      (handleAnalyze st newId env).state.mode = st.mode := by
  obtain ⟨j, r, hj, hok, hfail, heq⟩ := handleAnalyze_success_char st newId env h
  obtain ⟨p, c, hp, hc, hy, hymin, hymax, -, -, -, -, -, -⟩ :=
    buildSuccess_getLast { st with isSimulating := true, error := none }
      (actionKeyOf st) newId r
  refine ⟨p, c, ?_, ?_, hy, hymin, hymax, ?_⟩
  · rw [heq]
    exact hp
  · rw [heq]
    exact hc
  · rw [heq]
    exact buildSuccess_mode _ _ _ _

theorem toggle_map_involutive (pts : List MoralPoint) (pid : String) :
    (pts.map (fun p => if p.id == pid then { p with showNoise := !p.showNoise } else p)).map
      (fun p => if p.id == pid then { p with showNoise := !p.showNoise } else p) = pts := by
  induction pts with
  | nil => rfl
  | cons p tl ih =>
      simp only [List.map_cons, ih]
      congr 1
      cases p with
      | mk pi pa pin px py pymn pymx pxmn pxmx pl pm ps =>
          by_cases h : pi = pid
          · simp [h]
          · simp [h]

/-! ### The claims -/

/-- Claim C8: removing a point by identifier keeps every point with a
different identifier, with all of its fields and in the original order,
removes only points carrying the given identifier, and leaves the cache
and the rest of the component state unchanged. -/
theorem c8_removePoint_frame (st : AppState) (pid : String) :
    (removePoint st pid).yCache = st.yCache ∧
    List.Sublist (removePoint st pid).points st.points ∧
    (∀ p, p ∈ st.points → p.id ≠ pid → p ∈ (removePoint st pid).points) ∧
    (∀ p, p ∈ (removePoint st pid).points → p ∈ st.points ∧ p.id ≠ pid) ∧
    (removePoint st pid).actionInput = st.actionInput ∧
    (removePoint st pid).intentInput = st.intentInput ∧
    (removePoint st pid).mode = st.mode ∧
    (removePoint st pid).isSimulating = st.isSimulating ∧
    (removePoint st pid).error = st.error ∧
    (removePoint st pid).notification = st.notification := by
  refine ⟨rfl, ?_, ?_, ?_, rfl, rfl, rfl, rfl, rfl, rfl⟩
  · simp only [removePoint]
    exact List.filter_sublist st.points
  · intro p hp hne
    simp [removePoint, List.mem_filter, hp, hne]
  · intro p hp
    simp [removePoint, List.mem_filter] at hp
    exact hp

/-- Witness for C8 at a concrete store: removing by identifier "1" leaves
the cache of the initial state untouched. -/
theorem c8_removePoint_frame_witness :
    (removePoint initialState "1").yCache = initialState.yCache :=
  (c8_removePoint_frame initialState "1").1

/-- Claim C9: toggling a point's uncertainty flag twice restores the state
exactly; a single toggle keeps the list length and the cache, and pointwise
changes at most the showNoise flag of the points carrying the identifier,
leaving coordinates, bounds, labels, modes and every other point intact. -/
theorem c9_toggleNoise_involution (st : AppState) (pid : String) :
    toggleNoise (toggleNoise st pid) pid = st ∧
    (toggleNoise st pid).points.length = st.points.length ∧
    (toggleNoise st pid).yCache = st.yCache ∧
    ∀ k (hk2 : k < (toggleNoise st pid).points.length) (hk : k < st.points.length),
      ((toggleNoise st pid).points.get ⟨k, hk2⟩).id = (st.points.get ⟨k, hk⟩).id ∧
      ((toggleNoise st pid).points.get ⟨k, hk2⟩).action = (st.points.get ⟨k, hk⟩).action ∧
      ((toggleNoise st pid).points.get ⟨k, hk2⟩).intent = (st.points.get ⟨k, hk⟩).intent ∧
      ((toggleNoise st pid).points.get ⟨k, hk2⟩).x = (st.points.get ⟨k, hk⟩).x ∧
      ((toggleNoise st pid).points.get ⟨k, hk2⟩).y = (st.points.get ⟨k, hk⟩).y ∧
      ((toggleNoise st pid).points.get ⟨k, hk2⟩).yMin = (st.points.get ⟨k, hk⟩).yMin ∧
      ((toggleNoise st pid).points.get ⟨k, hk2⟩).yMax = (st.points.get ⟨k, hk⟩).yMax ∧
      ((toggleNoise st pid).points.get ⟨k, hk2⟩).xMin = (st.points.get ⟨k, hk⟩).xMin ∧
      ((toggleNoise st pid).points.get ⟨k, hk2⟩).xMax = (st.points.get ⟨k, hk⟩).xMax ∧
      ((toggleNoise st pid).points.get ⟨k, hk2⟩).label = (st.points.get ⟨k, hk⟩).label ∧
      ((toggleNoise st pid).points.get ⟨k, hk2⟩).mode = (st.points.get ⟨k, hk⟩).mode ∧
      ((st.points.get ⟨k, hk⟩).id ≠ pid →
        ((toggleNoise st pid).points.get ⟨k, hk2⟩).showNoise =
          (st.points.get ⟨k, hk⟩).showNoise) ∧
      ((st.points.get ⟨k, hk⟩).id = pid →
        ((toggleNoise st pid).points.get ⟨k, hk2⟩).showNoise =
          !(st.points.get ⟨k, hk⟩).showNoise) := by
  refine ⟨?_, by simp [toggleNoise], rfl, ?_⟩
  · cases st
    simp only [toggleNoise]
    rw [toggle_map_involutive]
  · intro k hk2 hk
    have hq : (toggleNoise st pid).points.get ⟨k, hk2⟩ =
        (fun p => if p.id == pid then { p with showNoise := !p.showNoise } else p)
          (st.points.get ⟨k, hk⟩) := by
      simp only [toggleNoise, List.get_eq_getElem, List.getElem_map]
    rw [hq]
    simp only [List.get_eq_getElem]
    by_cases h : st.points[k].id = pid
    · simp [h]
    · simp [h]

/-- Witness for C9: a double toggle of the seed point's flag in the initial
state restores it exactly. -/
theorem c9_toggleNoise_involution_witness :
    toggleNoise (toggleNoise initialState "1") "1" = initialState :=
  (c9_toggleNoise_involution initialState "1").1

/-- Claim C10: invoking the analyze operation when the action text or the
intent text is empty returns immediately: no API call is issued, no delay
is awaited, no error is surfaced, the cache is not written and the state —
point store, cache, flags, inputs — is exactly unchanged. -/
theorem c10_empty_input_noop (st : AppState) (newId : String)
    (env : Nat → ApiResponse) (h : st.actionInput = "" ∨ st.intentInput = "") :
    handleAnalyze st newId env =
      { state := st, delays := [], apiCalls := 0, success := false,
        errorsSurfaced := [], cacheWrites := 0 } :=
  handleAnalyze_empty st newId env h

/-- Witness for C10: on the initial state (whose action input is empty) the
analyze operation is a no-op even when the model would answer. -/
theorem c10_empty_input_noop_witness :
    handleAnalyze initialState "9"
        (fun _ => ApiResponse.payload (some 1) (some 1) none none none none) =
      { state := initialState, delays := [], apiCalls := 0, success := false,
        errorsSurfaced := [], cacheWrites := 0 } :=
  c10_empty_input_noop initialState "9"
    (fun _ => ApiResponse.payload (some 1) (some 1) none none none none) (Or.inl rfl)

/-- Claim C5: when all three attempts of a submission fail, exactly one
generic error message is surfaced, no point is appended, the cache is
neither written nor changed, the error banner carries the generic message
and the in-flight flag ends lowered. -/
theorem c5_all_fail_single_error (st : AppState) (newId : String)
    (env : Nat → ApiResponse)
    (hA : ¬ st.actionInput = "") (hI : ¬ st.intentInput = "")
    (h : ∀ j, j < 3 → callGeminiAPI (env j) = Except.error ()) :
    (handleAnalyze st newId env).errorsSurfaced = [analysisFailedMsg] ∧
    (handleAnalyze st newId env).state.points = st.points ∧
    (handleAnalyze st newId env).state.yCache = st.yCache ∧
    (handleAnalyze st newId env).cacheWrites = 0 ∧
    (handleAnalyze st newId env).success = false ∧
    (handleAnalyze st newId env).state.error = some analysisFailedMsg ∧
    (handleAnalyze st newId env).state.isSimulating = false := by
  have hin : ¬ (st.actionInput = "" ∨ st.intentInput = "") := by
    intro hor
    rcases hor with h1 | h2
    · exact hA h1
    · exact hI h2
  rw [handleAnalyze_all_fail st newId env hin (h 0 (by norm_num)) (h 1 (by norm_num))
    (h 2 (by norm_num))]
  exact ⟨rfl, rfl, rfl, rfl, rfl, rfl, rfl⟩

/-- Witness for C5: a concrete submission against a model that always
answers with an empty candidate list surfaces exactly the one message and
appends nothing. -/
theorem c5_all_fail_single_error_witness :
    (handleAnalyze (setInputs initialState "betray a friend" "fear") "7"
        (fun _ => ApiResponse.noText)).errorsSurfaced = [analysisFailedMsg] ∧
    (handleAnalyze (setInputs initialState "betray a friend" "fear") "7"
        (fun _ => ApiResponse.noText)).state.points =
      (setInputs initialState "betray a friend" "fear").points :=
  ⟨(c5_all_fail_single_error (setInputs initialState "betray a friend" "fear") "7"
      (fun _ => ApiResponse.noText) (by decide) (by decide) (fun j _ => rfl)).1,
   (c5_all_fail_single_error (setInputs initialState "betray a friend" "fear") "7"
      (fun _ => ApiResponse.noText) (by decide) (by decide) (fun j _ => rfl)).2.1⟩

/-- Counterexample to claim C4: when all three attempts fail, the loop also
waits after the third and final attempt — the recorded waits are 1, 2 and 4
seconds (in milliseconds), one per attempt, so the number of waits is not
smaller than the number of attempts. -/
theorem c4_cex_wait_after_final_attempt :
    (handleAnalyze (setInputs initialState "lie" "spite") "9"
        (fun _ => ApiResponse.httpError 500)).apiCalls = 3 ∧
    (handleAnalyze (setInputs initialState "lie" "spite") "9"
        (fun _ => ApiResponse.httpError 500)).delays = [1000, 2000, 4000] ∧
    ¬ (handleAnalyze (setInputs initialState "lie" "spite") "9"
        (fun _ => ApiResponse.httpError 500)).delays.length <
      (handleAnalyze (setInputs initialState "lie" "spite") "9"
        (fun _ => ApiResponse.httpError 500)).apiCalls := by
  rw [handleAnalyze_all_fail (setInputs initialState "lie" "spite") "9"
    (fun _ => ApiResponse.httpError 500) (by decide) rfl rfl rfl]
  exact ⟨rfl, rfl, by decide⟩

/-- Claim C4 amended: at most 3 attempts are made; a wait of
`2^attempt` seconds (modelled in milliseconds) follows every failed
attempt — including the final one — and only when all attempts fail is a
single failure surfaced; a successful run surfaces none. -/
theorem c4_amended_retry_policy :
    (∀ st newId env, (handleAnalyze st newId env).apiCalls ≤ 3) ∧
    (∀ st newId env, (handleAnalyze st newId env).success = true →
      (handleAnalyze st newId env).errorsSurfaced = []) ∧
    (∀ st newId env, ¬ st.actionInput = "" → ¬ st.intentInput = "" →
      (∀ j, j < 3 → callGeminiAPI (env j) = Except.error ()) →
      (handleAnalyze st newId env).delays = [1000, 2000, 4000] ∧
      (handleAnalyze st newId env).apiCalls = 3 ∧
      (handleAnalyze st newId env).success = false ∧
      (handleAnalyze st newId env).errorsSurfaced = [analysisFailedMsg]) := by
  refine ⟨handleAnalyze_apiCalls_le3, ?_, ?_⟩
  · intro st newId env h
    obtain ⟨j, r, hj, hok, hfail, heq⟩ := handleAnalyze_success_char st newId env h
    rw [heq]
  · intro st newId env hA hI h
    have hin : ¬ (st.actionInput = "" ∨ st.intentInput = "") := by
      intro hor
      rcases hor with h1 | h2
      · exact hA h1
      · exact hI h2
    rw [handleAnalyze_all_fail st newId env hin (h 0 (by norm_num)) (h 1 (by norm_num))
      (h 2 (by norm_num))]
    exact ⟨rfl, rfl, rfl, rfl⟩

/-- Witness for the amended C4 at a concrete failing run: the three waits,
each after one of the three attempts. -/
theorem c4_amended_retry_policy_witness :
    (handleAnalyze (setInputs initialState "cheat" "greed") "8"
        (fun _ => ApiResponse.unparsableJson)).delays = [1000, 2000, 4000] :=
  (c4_amended_retry_policy.2.2 (setInputs initialState "cheat" "greed") "8"
    (fun _ => ApiResponse.unparsableJson) (by decide) (by decide) (fun j _ => rfl)).1

/-- Counterexample to claim C6: already in the initial state the pre-seeded
cache entry for key "seismograph:i abort my child" holds intent-derived
x-bounds (xMin = 0.85, xMax = 1). -/
theorem c6_cex_initial_cache_holds_x :
    (cacheLookup initialState.yCache "seismograph:i abort my child").map CacheEntry.xMin =
      some (some (85/100)) ∧
    (cacheLookup initialState.yCache "seismograph:i abort my child").map CacheEntry.xMax =
      some (some 1) :=
  ⟨rfl, rfl⟩

/-- Claim C6 amended: every cache entry written by the analyze operation
stores only the y-coordinate and y-bounds (its x-fields are absent); any
entry of the post-state cache either was already present before the call or
has empty x-fields. The other operations never write the cache: point
removal, toggling and bulk point clearing leave it unchanged, and the
clear-cache operation empties it. Only the pre-seeded initial entry ever
carries x-bounds. -/
theorem c6_amended_cache_entry_shape :
    (∀ st newId env k c,
      cacheLookup (handleAnalyze st newId env).state.yCache k = some c →
      cacheLookup st.yCache k = some c ∨ (c.xMin = none ∧ c.xMax = none)) ∧
    (∀ st pid, (removePoint st pid).yCache = st.yCache) ∧
    (∀ st pid, (toggleNoise st pid).yCache = st.yCache) ∧
    (∀ st, (clearAllPoints st).yCache = st.yCache) ∧
    (∀ st, (clearCache st).yCache = []) := by
  refine ⟨?_, fun st pid => rfl, fun st pid => rfl, fun st => rfl, fun st => rfl⟩
  intro st newId env k c h
  by_cases hs : (handleAnalyze st newId env).success = true
  · obtain ⟨j, r, hj, hok, hfail, heq⟩ := handleAnalyze_success_char st newId env hs
    rw [heq] at h
    cases hc : cacheLookup
        (AppState.yCache { st with isSimulating := true, error := none })
        (actionKeyOf st) with
    | some c0 =>
        have hcache := (buildSuccess_hit { st with isSimulating := true, error := none }
          (actionKeyOf st) newId r c0 hc).1
        rw [hcache] at h
        left
        exact h
    | none =>
        have hcache := (buildSuccess_miss { st with isSimulating := true, error := none }
          (actionKeyOf st) newId r hc).1
        rw [hcache] at h
        by_cases hk : k = actionKeyOf st
        · subst hk
          rw [cacheLookup_insert_self] at h
          have hco := Option.some.inj h
          right
          rw [← hco]
          exact ⟨rfl, rfl⟩
        · rw [cacheLookup_insert_ne _ (actionKeyOf st) k _ hk] at h
          left
          exact h
  · have hs2 : (handleAnalyze st newId env).success = false := by
      cases hb : (handleAnalyze st newId env).success
      · rfl
      · exact absurd hb hs
    rcases handleAnalyze_fail_char st newId env hs2 with hstate | hstate
    · rw [hstate] at h
      left
      exact h
    · rw [hstate] at h
      left
      exact h

/-- Witness for the amended C6: the entry a fresh successful submission
stores under its key has empty x-fields. -/
theorem c6_amended_cache_entry_shape_witness :
    cacheLookup (setInputs initialState "help a stranger" "love").yCache
        "seismograph:help a stranger" =
      some { y := some 0, yMin := some (-1), yMax := some 1,
             xMin := none, xMax := none } ∨
    (({ y := some 0, yMin := some (-1), yMax := some 1,
        xMin := none, xMax := none } : CacheEntry).xMin = none ∧
     ({ y := some 0, yMin := some (-1), yMax := some 1,
        xMin := none, xMax := none } : CacheEntry).xMax = none) :=
  c6_amended_cache_entry_shape.1 (setInputs initialState "help a stranger" "love") "5"
    (fun _ => ApiResponse.payload (some 1) (some 0) (some (-1)) (some 1)
      (some 1) (some 1))
    "seismograph:help a stranger"
    { y := some 0, yMin := some (-1), yMax := some 1, xMin := none, xMax := none }
    (by decide)

/-- Counterexample to claim C3: a parsable JSON payload missing every
expected field — in particular x and y — is accepted on the very first
attempt: no retry happens and a point with undefined coordinates is
appended. -/
theorem c3_cex_missing_fields_accepted :
    callGeminiAPI (ApiResponse.payload none none none none none none) =
      Except.ok { x := none, y := none, yMin := none, yMax := none,
                  xMin := none, xMax := none } ∧
    (handleAnalyze (setInputs initialState "steal bread" "hunger") "42"
        (fun _ => ApiResponse.payload none none none none none none)).success = true ∧
    (handleAnalyze (setInputs initialState "steal bread" "hunger") "42"
        (fun _ => ApiResponse.payload none none none none none none)).apiCalls = 1 ∧
    (handleAnalyze (setInputs initialState "steal bread" "hunger") "42"
        (fun _ => ApiResponse.payload none none none none none none)).state.points.getLast? =
      some { id := "42", action := "steal bread", intent := "hunger", x := none, y := none,
             yMin := none, yMax := none, xMin := none, xMax := none, label := "Scenario 2",
             mode := AnalysisMode.seismograph, showNoise := false } := by
  refine ⟨rfl, by decide, by decide, by decide⟩

/-- Claim C3 amended: transport failures, non-success statuses, missing
response text and unparsable JSON all fail the attempt and are retried at
the loop boundary — an all-unparsable run makes all 3 attempts, surfaces
one message and appends nothing — but a parsable payload is always
accepted as returned, even when expected fields are missing: the absent
fields propagate as undefined instead of failing the attempt. -/
theorem c3_amended_rejection_boundary :
    (∀ s, callGeminiAPI (ApiResponse.httpError s) = Except.error ()) ∧
    callGeminiAPI ApiResponse.noText = Except.error () ∧
    callGeminiAPI ApiResponse.unparsableJson = Except.error () ∧
    (∀ x y a b c d, callGeminiAPI (ApiResponse.payload x y a b c d) =
      Except.ok { x := x, y := y, yMin := a, yMax := b, xMin := c, xMax := d }) ∧
    (∀ st newId, ¬ st.actionInput = "" → ¬ st.intentInput = "" →
      (handleAnalyze st newId (fun _ => ApiResponse.unparsableJson)).success = false ∧
      (handleAnalyze st newId (fun _ => ApiResponse.unparsableJson)).apiCalls = 3 ∧
      (handleAnalyze st newId (fun _ => ApiResponse.unparsableJson)).errorsSurfaced =
        [analysisFailedMsg] ∧
      (handleAnalyze st newId (fun _ => ApiResponse.unparsableJson)).state.points =
        st.points) := by
  refine ⟨fun s => rfl, rfl, rfl, fun x y a b c d => rfl, ?_⟩
  intro st newId hA hI
  have hin : ¬ (st.actionInput = "" ∨ st.intentInput = "") := by
    intro hor
    rcases hor with h1 | h2
    · exact hA h1
    · exact hI h2
  rw [handleAnalyze_all_fail st newId (fun _ => ApiResponse.unparsableJson) hin rfl rfl rfl]
  exact ⟨rfl, rfl, rfl, rfl⟩

/-- Witness for the amended C3 at a concrete all-unparsable run. -/
theorem c3_amended_rejection_boundary_witness :
    (handleAnalyze (setInputs initialState "shoplift" "thrill") "3"
        (fun _ => ApiResponse.unparsableJson)).apiCalls = 3 :=
  (c3_amended_rejection_boundary.2.2.2.2 (setInputs initialState "shoplift" "thrill") "3"
    (by decide) (by decide)).2.1

/-- Claim C7: after the clear-cache operation every submission misses the
cache, so a successful resubmission of a previously cached action accepts
the freshly returned y-data for its point, writes the cache exactly once,
and the new cached value under the submission's key is exactly that fresh
y-data. -/
theorem c7_clear_cache_then_resubmit (st : AppState) (a i newId : String)
    (env : Nat → ApiResponse)
    (h : (handleAnalyze (setInputs (clearCache st) a i) newId env).success = true) :
    ∃ j r p, j < 3 ∧ callGeminiAPI (env j) = Except.ok r ∧
      (handleAnalyze (setInputs (clearCache st) a i) newId env).cacheWrites = 1 ∧
      (handleAnalyze (setInputs (clearCache st) a i) newId env).state.points.getLast? =
        some p ∧
      p.y = r.y ∧ p.yMin = r.yMin ∧ p.yMax = r.yMax ∧
      cacheLookup (handleAnalyze (setInputs (clearCache st) a i) newId env).state.yCache
          (actionKeyOf (setInputs (clearCache st) a i)) =
        some { y := r.y, yMin := r.yMin, yMax := r.yMax, xMin := none, xMax := none } := by
  obtain ⟨j, r, hj, hok, hfail, heq⟩ :=
    handleAnalyze_success_char (setInputs (clearCache st) a i) newId env h
  have hnone : cacheLookup
      (AppState.yCache
        { setInputs (clearCache st) a i with isSimulating := true, error := none })
      (actionKeyOf (setInputs (clearCache st) a i)) = none := rfl
  obtain ⟨hcache, p, hp, hy, hymin, hymax, hx, hxmin, hxmax⟩ :=
    buildSuccess_miss _ _ newId r hnone
  refine ⟨j, r, p, hj, hok, ?_, ?_, hy, hymin, hymax, ?_⟩
  · rw [heq]
    have hw : successWrites
        { setInputs (clearCache st) a i with isSimulating := true, error := none }
        (actionKeyOf (setInputs (clearCache st) a i)) = 1 := by
      unfold successWrites
      rw [hnone]
    exact hw
  · rw [heq]
    exact hp
  · rw [heq]
    rw [hcache]
    exact cacheLookup_insert_self _ _ _

/-- Witness for C7: clearing the cache and resubmitting the pre-seeded
action accepts the freshly returned y-value as the new cached value. -/
theorem c7_clear_cache_then_resubmit_witness :
    ∃ j r p, j < 3 ∧
      callGeminiAPI ((fun _ => ApiResponse.payload (some (1/2)) (some (3/4))
        (some (1/2)) (some 1) (some (2/5)) (some (3/5))) j) = Except.ok r ∧
      (handleAnalyze (setInputs (clearCache initialState) "i abort my child" "testing") "11"
          (fun _ => ApiResponse.payload (some (1/2)) (some (3/4))
            (some (1/2)) (some 1) (some (2/5)) (some (3/5)))).cacheWrites = 1 ∧
      (handleAnalyze (setInputs (clearCache initialState) "i abort my child" "testing") "11"
          (fun _ => ApiResponse.payload (some (1/2)) (some (3/4))
            (some (1/2)) (some 1) (some (2/5)) (some (3/5)))).state.points.getLast? =
        some p ∧
      p.y = r.y ∧ p.yMin = r.yMin ∧ p.yMax = r.yMax ∧
      cacheLookup (handleAnalyze (setInputs (clearCache initialState) "i abort my child"
            "testing") "11"
          (fun _ => ApiResponse.payload (some (1/2)) (some (3/4))
            (some (1/2)) (some 1) (some (2/5)) (some (3/5)))).state.yCache
          (actionKeyOf (setInputs (clearCache initialState) "i abort my child" "testing")) =
        some { y := r.y, yMin := r.yMin, yMax := r.yMax, xMin := none, xMax := none } :=
  c7_clear_cache_then_resubmit initialState "i abort my child" "testing" "11"
    (fun _ => ApiResponse.payload (some (1/2)) (some (3/4))
      (some (1/2)) (some 1) (some (2/5)) (some (3/5))) (by decide)

/-- Claim C2: on every successful submission the constructed point's
x-coordinate and x-bounds equal those of the latest API response — the
first attempt that succeeded, all earlier attempts having failed — and the
cache lookup never overrides them. -/
theorem c2_x_always_fresh (st : AppState) (newId : String) (env : Nat → ApiResponse)
    (h : (handleAnalyze st newId env).success = true) :
    ∃ j r p, j < 3 ∧ callGeminiAPI (env j) = Except.ok r ∧
      (∀ k, k < j → callGeminiAPI (env k) = Except.error ()) ∧
      (handleAnalyze st newId env).state.points.getLast? = some p ∧
      p.x = r.x ∧ p.xMin = r.xMin ∧ p.xMax = r.xMax := by
  obtain ⟨j, r, hj, hok, hfail, heq⟩ := handleAnalyze_success_char st newId env h
  obtain ⟨p, c, hp, hc, hy, hymin, hymax, hx, hxmin, hxmax, hid, hact, hint, hmode, hnoise⟩ :=
    buildSuccess_getLast { st with isSimulating := true, error := none } (actionKeyOf st)
      newId r
  refine ⟨j, r, p, hj, hok, hfail, ?_, hx, hxmin, hxmax⟩
  rw [heq]
  exact hp

/-- Witness for C2: the pre-seeded action resubmitted in upper case hits
the cache for y, yet the point takes x and the x-bounds from the fresh
response. -/
theorem c2_x_always_fresh_witness :
    ∃ j r p, j < 3 ∧
      callGeminiAPI ((fun _ => ApiResponse.payload (some (1/4)) (some 1) (some (9/10))
        (some 1) (some (1/8)) (some (3/8))) j) = Except.ok r ∧
      (∀ k, k < j →
        callGeminiAPI ((fun _ => ApiResponse.payload (some (1/4)) (some 1) (some (9/10))
          (some 1) (some (1/8)) (some (3/8))) k) = Except.error ()) ∧
      (handleAnalyze (setInputs initialState "I Abort My Child" "curiosity") "12"
          (fun _ => ApiResponse.payload (some (1/4)) (some 1) (some (9/10))
            (some 1) (some (1/8)) (some (3/8)))).state.points.getLast? = some p ∧
      p.x = r.x ∧ p.xMin = r.xMin ∧ p.xMax = r.xMax :=
  c2_x_always_fresh (setInputs initialState "I Abort My Child" "curiosity") "12"
    (fun _ => ApiResponse.payload (some (1/4)) (some 1) (some (9/10))
      (some 1) (some (1/8)) (some (3/8))) (by decide)

/-- Claim C1: when the submission's mode-qualified, trimmed, lower-cased
action text is already in the y-cache, the point built on success takes
y, yMin and yMax from the cached entry; consequently two consecutive
successful submissions of the same action text under the same mode yield
identical y, yMin, yMax, whatever the intent texts and whatever the model
returns the second time. -/
theorem c1_repeat_action_same_y :
    (∀ st newId env c,
      cacheLookup st.yCache (actionKeyOf st) = some c →
      (handleAnalyze st newId env).success = true →
      ∃ p, (handleAnalyze st newId env).state.points.getLast? = some p ∧
        p.y = c.y ∧ p.yMin = c.yMin ∧ p.yMax = c.yMax) ∧
    (∀ st a i1 i2 id1 id2 env1 env2,
      (handleAnalyze (setInputs st a i1) id1 env1).success = true →
      (handleAnalyze (setInputs (handleAnalyze (setInputs st a i1) id1 env1).state a i2)
          id2 env2).success = true →
      ∃ p1 p2,
        (handleAnalyze (setInputs st a i1) id1 env1).state.points.getLast? = some p1 ∧
        (handleAnalyze (setInputs (handleAnalyze (setInputs st a i1) id1 env1).state a i2)
            id2 env2).state.points.getLast? = some p2 ∧
        p2.y = p1.y ∧ p2.yMin = p1.yMin ∧ p2.yMax = p1.yMax) := by
  constructor
  · exact fun st newId env c hc h => cached_y_point st newId env c hc h
  · intro st a i1 i2 id1 id2 env1 env2 h1 h2
    obtain ⟨p1, c1, hp1, hc1, hy1, hymin1, hymax1, hmode1⟩ :=
      analyze_post_point_cache (setInputs st a i1) id1 env1 h1
    have hm : ∀ (s : AppState) (x y : String), (setInputs s x y).mode = s.mode :=
      fun s x y => rfl
    have ha : ∀ (s : AppState) (x y : String), (setInputs s x y).actionInput = x :=
      fun s x y => rfl
    have hkey : actionKeyOf
        (setInputs (handleAnalyze (setInputs st a i1) id1 env1).state a i2) =
        actionKeyOf (setInputs st a i1) := by
      simp only [actionKeyOf, hm, ha]
      rw [hmode1, hm]
    have hc2 : cacheLookup
        (AppState.yCache
          (setInputs (handleAnalyze (setInputs st a i1) id1 env1).state a i2))
        (actionKeyOf
          (setInputs (handleAnalyze (setInputs st a i1) id1 env1).state a i2)) =
        some c1 := by
      rw [hkey]
      exact hc1
    obtain ⟨p2, hp2, hy2, hymin2, hymax2⟩ := cached_y_point
      (setInputs (handleAnalyze (setInputs st a i1) id1 env1).state a i2) id2 env2 c1 hc2 h2
    exact ⟨p1, p2, hp1, hp2, by rw [hy2, ← hy1], by rw [hymin2, ← hymin1],
      by rw [hymax2, ← hymax1]⟩

/-- Witness for C1: the same action text submitted twice with different
intent texts and different model outputs yields the same cached y-data on
both occasions. -/
theorem c1_repeat_action_same_y_witness :
    ∃ p1 p2,
      (handleAnalyze (setInputs initialState "donate blood" "duty") "21"
          (fun _ => ApiResponse.payload (some (1/2)) (some (3/5)) (some (2/5)) (some (4/5))
            (some (1/5)) (some (3/5)))).state.points.getLast? = some p1 ∧
      (handleAnalyze (setInputs (handleAnalyze (setInputs initialState "donate blood" "duty")
            "21" (fun _ => ApiResponse.payload (some (1/2)) (some (3/5)) (some (2/5))
              (some (4/5)) (some (1/5)) (some (3/5)))).state "donate blood" "vanity") "22"
          (fun _ => ApiResponse.payload (some (-1/2)) (some (-3/5)) (some (-4/5))
            (some (-2/5)) (some (-3/5)) (some (-1/5)))).state.points.getLast? = some p2 ∧
      p2.y = p1.y ∧ p2.yMin = p1.yMin ∧ p2.yMax = p1.yMax :=
  c1_repeat_action_same_y.2 initialState "donate blood" "duty" "vanity" "21" "22"
    (fun _ => ApiResponse.payload (some (1/2)) (some (3/5)) (some (2/5)) (some (4/5))
      (some (1/5)) (some (3/5)))
    (fun _ => ApiResponse.payload (some (-1/2)) (some (-3/5)) (some (-4/5)) (some (-2/5))
      (some (-3/5)) (some (-1/5)))
    (by decide) (by decide)
